import Mathlib

/-!
Shallow embedding of the discordgobot gateway client (package `discordbot`):
the gateway protocol engine of `gateway.go` together with the heartbeat
monitor and the payload records from the remaining source files.  Machine
integers of the Go source (`int`, `time.Duration`) are modelled as `Int`
with an explicit two's-complement wrap at 64 bits where an arithmetic
operation of the source can overflow.
-/

namespace Discordbot

/-- Gateway opcode constants from `gateway.go`: dispatches an event. -/
def OpcodeDispatch : Int := 0

/-- Send/Receive: used for ping checking. -/
def OpcodeHeartbeat : Int := 1

/-- Send: used for client handshake. -/
def OpcodeIdentify : Int := 2

/-- Send: used to update the client status. -/
def OpcodeStatusUpdate : Int := 3

/-- Send: used to join/move/leave voice channels. -/
def OpcodeVoiceStateUpdate : Int := 4

/-- Send: used for voice ping checking. -/
def OpcodeVoiceServerPing : Int := 5

/-- Send: used to resume a closed connection. -/
def OpcodeResume : Int := 6

/-- Receive: used to tell clients to reconnect to the gateway. -/
def OpcodeReconnect : Int := 7

/-- Send: used to request guild members. -/
def OpcodeRequestGuildMembers : Int := 8

/-- Receive: used to notify client they have an invalid session id. -/
def OpcodeInvalidSession : Int := 9

/-- Receive: sent immediately after connecting, contains heartbeat and server debug information. -/
def OpcodeHello : Int := 10

/-- Receive: sent immediately following a client heartbeat that was received. -/
def OpcodeHeartbeatACK : Int := 11

/-- Gateway close code from `gateway.go`: session timed out (4009). -/
def CloseSessionTimeout : Int := 4009

/-- Close-frame message type of the websocket library (`websocket.CloseMessage`). -/
def CloseMessage : Int := 8

/-- One millisecond of Go's `time.Duration`, in nanoseconds. -/
def Millisecond : Int := 1000000

/-- One second of Go's `time.Duration`, in nanoseconds. -/
def Second : Int := 1000000000

/-- Two's-complement wrap of an unbounded integer to Go's 64-bit `int` /
`time.Duration` range, used where an arithmetic operation of the source can
overflow. -/
def int64Wrap (x : Int) : Int :=
  (x + 9223372036854775808) % 18446744073709551616 - 9223372036854775808

/-- Wire envelope `GatewayPayload` of `gateway.go`: `op`, optional `t`
(Go zero value is the empty string), raw `d` bytes (`none` models a nil
`json.RawMessage`), optional `s` (`none` models a nil `*int`). -/
structure GatewayPayload where
  opcode : Int
  eventName : String := ""
  eventData : Option String := none
  sequenceNumber : Option Int := none
  deriving Repr, DecidableEq

/-- Decoded `d` of the hello frame (`gatewayHelloResponse` of `gateway.go`):
`heartbeat_interval` in milliseconds. -/
structure gatewayHelloResponse where
  heartbeatInterval : Int
  deriving Repr, DecidableEq

/-- The derived heartbeat cadence of `Connect`:
`time.Duration(helloMessage.HeartbeatInterval) * time.Millisecond`,
a 64-bit multiplication that wraps on overflow. -/
def durationOfMilliseconds (ms : Int) : Int :=
  int64Wrap (ms * Millisecond)

/-- Distinct error returns of `Connect` after a successful dial
(each corresponds to one `return fmt.Errorf(...)` site of `gateway.go`;
the spec names the opcode violation `HandshakeProtocolViolation` and the
interval violation `InvalidLivenessInterval`). -/
inductive ConnectError
  | helloReadFailure
  | handshakeProtocolViolation
  | helloDecodeFailure
  | invalidLivenessInterval
  deriving Repr, DecidableEq

/-- Outcome of the post-dial part of `Connect`: the error returned (if any),
whether `startHeartbeat` ran, the interval stored in
`discordHeartbeat.interval` (nanoseconds), and whether the receive-loop
goroutine was spawned. -/
structure ConnectResult where
  error : Option ConnectError
  heartbeatStarted : Bool
  heartbeatInterval : Option Int
  receiveLoopStarted : Bool
  deriving Repr, DecidableEq

/-- The post-dial control flow of `Connect` (`gateway.go`): read the first
frame (`none` models a `ReadJSON` error), require the hello opcode, decode
the hello body (`decodeHello` models `json.Unmarshal` on the frame's `d`),
derive the heartbeat interval and reject it when `≤ 0`; on success start the
heartbeat monitor and the receive loop. -/
def connectAfterDial (firstRead : Option GatewayPayload)
    (decodeHello : GatewayPayload → Option gatewayHelloResponse) : ConnectResult :=
  match firstRead with
  | none =>
      { error := some .helloReadFailure, heartbeatStarted := false,
        heartbeatInterval := none, receiveLoopStarted := false }
  | some helloResp =>
      if helloResp.opcode ≠ OpcodeHello then
        { error := some .handshakeProtocolViolation, heartbeatStarted := false,
          heartbeatInterval := none, receiveLoopStarted := false }
      else
        match decodeHello helloResp with
        | none =>
            { error := some .helloDecodeFailure, heartbeatStarted := false,
              heartbeatInterval := none, receiveLoopStarted := false }
        | some helloMessage =>
            let heartbeatInterval := durationOfMilliseconds helloMessage.heartbeatInterval
            if heartbeatInterval ≤ 0 then
              { error := some .invalidLivenessInterval, heartbeatStarted := false,
                heartbeatInterval := none, receiveLoopStarted := false }
            else
              { error := none, heartbeatStarted := true,
                heartbeatInterval := some heartbeatInterval, receiveLoopStarted := true }

/-- Method `RegisterOpcodeListener` of `gateway.go`:
`g.opcodeListeners[opcode] = append(g.opcodeListeners[opcode], listener)`.
The registry is the total lookup function of the Go map (a missing key and
the initial nil map both read as the empty list, on which `append` works).
Listeners are kept abstract in `L` (identity tokens in concrete instances). -/
def RegisterOpcodeListener {L : Type} (listeners : Int → List L) (opcode : Int)
    (l : L) : Int → List L :=
  fun op => if op = opcode then listeners op ++ [l] else listeners op

/-- Method `RegisterEventListener` of `gateway.go`:
`g.eventListeners[event] = append(g.eventListeners[event], listener)`. -/
def RegisterEventListener {L : Type} (listeners : String → List L) (event : String)
    (l : L) : String → List L :=
  fun e => if e = event then listeners e ++ [l] else listeners e

/-- Fan-out of one receive-loop iteration (`gateway.go` lines 218-221): for
the frame just read, every entry of `g.opcodeListeners[payload.Opcode]` is
spawned once, in slice order, via `go opcodeListener(payload)`. -/
def invokedOpcodeListeners {L : Type} (listeners : Int → List L)
    (payload : GatewayPayload) : List L :=
  listeners payload.opcode

/-- Result of `g.conn.ReadJSON` in the receive loop: a decoded frame or a
read error. -/
inductive ReadResult
  | ok (payload : GatewayPayload)
  | failure (msg : String)
  deriving Repr, DecidableEq

/-- Behaviour of one receive-loop iteration. `dispatched` carries the
listeners spawned for the frame and the loop continues; `fatalExit` models
`log.Fatal`, which terminates the whole host process.
`connectionClosedWithReadFailure` is modelled from the spec (section 4.3):
stop the loop, mark the Connection closed and propagate a `ReadFailure` to
the owner; the source never produces it. -/
inductive LoopStep (L : Type)
  | dispatched (spawned : List L)
  | fatalExit (logMsg : String)
  | connectionClosedWithReadFailure

/-- One iteration of the receive loop of `Connect` (`gateway.go` lines
206-223): on a read error the source calls
`log.Fatal("Failure reading message.", err)`; otherwise it fans the frame
out to the registered opcode listeners. -/
def receiveLoopStep {L : Type} (listeners : Int → List L) :
    ReadResult → LoopStep L
  | .failure _ => .fatalExit "Failure reading message."
  | .ok payload => .dispatched (invokedOpcodeListeners listeners payload)

/-- Close control frame handed to `SendControl` (message type and the close
code formatted by `websocket.FormatCloseMessage`). -/
structure SentControl where
  messageType : Int
  closeCode : Int
  deriving Repr, DecidableEq

/-- Outcome of one `select` race of the heartbeat loop: the ack signal
arrives after `elapsed` nanoseconds (less than the interval), or the
`time.After(heartbeat.interval)` timer fires first. -/
inductive HeartbeatCycleEvent
  | ackReceived (elapsed : Int)
  | ackTimeout
  deriving Repr, DecidableEq

/-- Behaviour of one heartbeat cycle after the send. `sleptAndContinue`
carries the `time.Sleep` duration before the next cycle; `fatalExit` models
the `log.Fatal` call, which terminates the whole host process, and carries
the close control frame sent just before it. `surfacedAckTimeout` is
modelled from the spec (section 4.2, `TimedOut`): surface a fatal
`AckTimeout` condition to the owning Connection; the source never produces
it. -/
inductive CycleOutcome
  | sleptAndContinue (sleepDuration : Int)
  | fatalExit (sentClose : SentControl) (logMsg : String)
  | surfacedAckTimeout (sentClose : SentControl)
  deriving Repr, DecidableEq

/-- The ack-or-timeout `select` of `startHeartbeat` (heartbeat source file,
lines 72-89): on an ack, sleep `interval - timeSinceLast` and loop; on the
timer, send a close control frame with `CloseSessionTimeout` and call
`log.Fatal("Heartbeat ack not received within time window.")`. -/
def heartbeatCycle (interval : Int) : HeartbeatCycleEvent → CycleOutcome
  | .ackReceived elapsed => .sleptAndContinue (interval - elapsed)
  | .ackTimeout =>
      .fatalExit { messageType := CloseMessage, closeCode := CloseSessionTimeout }
        "Heartbeat ack not received within time window."

/-- The `heartbeatMessage` struct value of `startHeartbeat` before the first
loop iteration: only the opcode is set. -/
def initialHeartbeatMessage : GatewayPayload := { opcode := OpcodeHeartbeat }

/-- The heartbeat frame sent on iteration `n` of the `startHeartbeat` loop:
the single `heartbeatMessage` struct is reused and its `SequenceNumber`
field is overwritten with `heartbeat.getSequenceNum()` (the shared
`g.sequenceNumber`, whose value at iteration `n` is `getSeq n`; `none`
models a nil pointer, i.e. no sequence number observed yet) before each
send. -/
def heartbeatMessageSent (getSeq : Nat → Option Int) : Nat → GatewayPayload
  | 0 => { initialHeartbeatMessage with sequenceNumber := getSeq 0 }
  | n + 1 => { heartbeatMessageSent getSeq n with sequenceNumber := getSeq (n + 1) }

/-- Method `heartbeatRecv` of the heartbeat source file: on an inbound
heartbeat frame the gateway replies with
`SendPayload(&GatewayPayload{Opcode: OpcodeHeartbeatACK})` — every other
field keeps its Go zero value. -/
def heartbeatRecv (_payload : GatewayPayload) : GatewayPayload :=
  { opcode := OpcodeHeartbeatACK }

/-- The three built-in opcode listeners registered by `Connect` right after
`startHeartbeat`, as identity tokens: `heartbeatAckRecv` on
`OpcodeHeartbeatACK`, `heartbeatRecv` on `OpcodeHeartbeat`, and the
dispatch closure on `OpcodeDispatch`. -/
inductive BuiltinListener
  | heartbeatAckRecvTok
  | heartbeatRecvTok
  | dispatchTok
  deriving Repr, DecidableEq

/-- The opcode registry produced by the three `RegisterOpcodeListener` calls
of `Connect` (`gateway.go` lines 193-196), in source order, starting from
the empty registry of a fresh gateway. -/
def builtinOpcodeRegistry : Int → List BuiltinListener :=
  RegisterOpcodeListener
    (RegisterOpcodeListener
      (RegisterOpcodeListener (fun _ => []) OpcodeHeartbeatACK .heartbeatAckRecvTok)
      OpcodeHeartbeat .heartbeatRecvTok)
    OpcodeDispatch .dispatchTok

/-- Interleaving state for the dispatch-route race: the shared
`g.sequenceNumber`, the dispatch-listener goroutines spawned by the receive
loop but not yet scheduled (`go opcodeListener(payload)` queues the closure
with its frame), the dispatch frames the receive loop has already read and
fanned out (most recent last), and the values the heartbeat monitor's
`getSequenceNum` calls have observed. -/
structure RouterState where
  sequenceNumber : Option Int
  pendingDispatch : List GatewayPayload
  processedFrames : List GatewayPayload
  monitorReads : List (Option Int)
  deriving Repr, DecidableEq

/-- Scheduler actions of the race: the receive loop reads the next frame
(spawning the dispatch listener for dispatch-opcode frames), the Go
scheduler runs one pending dispatch-listener goroutine, or the heartbeat
monitor reads the shared sequence number. -/
inductive RouterAction
  | recvFrame (p : GatewayPayload)
  | runDispatchListener (i : Nat)
  | monitorRead
  deriving Repr, DecidableEq

/-- One interleaving step of the source's dispatch routing (`gateway.go`
lines 196-223): the receive loop only spawns the dispatch listener
asynchronously; the shared `g.sequenceNumber` is written when the spawned
goroutine runs (its first statement, before the event-name fan-out); the
heartbeat monitor reads `g.sequenceNumber` through `getSequenceNum`. -/
def routerStep (st : RouterState) : RouterAction → RouterState
  | .recvFrame p =>
      { st with
        processedFrames := st.processedFrames ++ [p],
        pendingDispatch :=
          if p.opcode = OpcodeDispatch then st.pendingDispatch ++ [p]
          else st.pendingDispatch }
  | .runDispatchListener i =>
      match st.pendingDispatch[i]? with
      | none => st
      | some p =>
          { st with
            sequenceNumber := p.sequenceNumber,
            pendingDispatch := st.pendingDispatch.eraseIdx i }
  | .monitorRead =>
      { st with monitorReads := st.monitorReads ++ [st.sequenceNumber] }

/-- Run a whole schedule of interleaving actions. -/
def runRouter (st : RouterState) : List RouterAction → RouterState
  | [] => st
  | a :: rest => runRouter (routerStep st a) rest

/-- A fresh connection: no sequence number observed, nothing pending. -/
def initialRouterState : RouterState :=
  { sequenceNumber := none, pendingDispatch := [], processedFrames := [],
    monitorReads := [] }

/-- A monitor-observation list violates the claimed ordering when a later
read returns a strictly smaller sequence number than an earlier one. -/
def seqViolation (reads : List (Option Int)) : Prop :=
  ∃ (i j : Nat) (a b : Int),
    i < j ∧ reads[i]? = some (some a) ∧ reads[j]? = some (some b) ∧ b < a

/-- A schedule the Go runtime may produce: the receive loop reads dispatch
frames with sequence numbers 1 then 2, the goroutine spawned for the second
frame runs first, the monitor reads, the goroutine for the first frame runs,
the monitor reads again. -/
def racySchedule : List RouterAction :=
  [ .recvFrame { opcode := OpcodeDispatch, sequenceNumber := some 1 },
    .recvFrame { opcode := OpcodeDispatch, sequenceNumber := some 2 },
    .runDispatchListener 1,
    .monitorRead,
    .runDispatchListener 0,
    .monitorRead ]

/-- Passive record `User` from the user source file. -/
structure User where
  id : String := ""
  username : String := ""
  discriminator : String := ""
  avatar : Option String := none
  bot : Option Bool := none
  mfaEnabled : Option Bool := none
  verified : Option Bool := none
  email : Option String := none
  deriving Repr, DecidableEq

/-- Decoded `d` of the Ready event (`gatewayReadyResponse` of `gateway.go`);
the trace, version, private-channel and guild fields are carried opaquely,
`Identify` only consumes `User` and `SessionId`. -/
structure gatewayReadyResponse where
  trace : List String := []
  version : Int := 0
  user : User := {}
  sessionId : String
  deriving Repr, DecidableEq

/-- Modelled from the spec: the event-name constant `EventReady` is declared
in a repository source file that is not present here (gateway.go and the
tests reference it); spec section 6 fixes the Ready event name as "READY". -/
def EventReady : String := "READY"

/-- How long to wait before giving up on identify event (`gateway.go`):
`time.Duration(30) * time.Second`. -/
def identifyTimeoutSeconds : Int := 30 * Second

/-- Distinct error returns of `Identify` (each mirrors one error site of
`gateway.go`; the spec names the decode error `IdentifyDecodeFailure` and
the timeout `IdentifyTimeout`). -/
inductive IdentifyError
  | marshalFailure
  | sendFailure
  | readyDecodeFailure
  | identifyTimeout
  deriving Repr, DecidableEq

/-- The gateway state `Identify` touches: the event-listener registry
(listeners as identity tokens) and the session id, plus the shared sequence
number for completeness. -/
structure GatewayState where
  eventListeners : String → List Nat
  sessionId : Option String
  sequenceNumber : Option Int

/-- Result of an `Identify` call: the returned `user` (Go zero value on
failure paths), the returned error, and the gateway state at return. -/
structure IdentifyResult where
  user : User
  error : Option IdentifyError
  finalState : GatewayState

/-- Method `Identify` of `gateway.go`: marshal the identify request
(`marshalOk` models `json.Marshal` succeeding), register a listener for the
`EventReady` event (`listenerTok` is its identity), send the identify
payload (`sendOk` models `SendPayload` succeeding), then `select` between
the ready rendezvous channel and `time.After(identifyTimeoutSeconds)`.
`readyArrival = some (t, decoded)` means a Ready event reaches the listener
after `t` nanoseconds with `json.Unmarshal` result `decoded`; `none` means
no Ready event ever arrives.  No path deregisters the listener — the source
has no deregistration operation. -/
def Identify (st : GatewayState) (listenerTok : Nat) (marshalOk : Bool)
    (sendOk : Bool) (readyArrival : Option (Int × Option gatewayReadyResponse)) :
    IdentifyResult :=
  if marshalOk = false then
    { user := {}, error := some .marshalFailure, finalState := st }
  else
    let st1 := { st with
      eventListeners := RegisterEventListener st.eventListeners EventReady listenerTok }
    if sendOk = false then
      { user := {}, error := some .sendFailure, finalState := st1 }
    else
      match readyArrival with
      | some (t, decoded) =>
          if t < identifyTimeoutSeconds then
            match decoded with
            | none => { user := {}, error := some .readyDecodeFailure, finalState := st1 }
            | some readyMessage =>
                { user := readyMessage.user, error := none,
                  finalState := { st1 with sessionId := some readyMessage.sessionId } }
          else
            { user := {}, error := some .identifyTimeout, finalState := st1 }
      | none => { user := {}, error := some .identifyTimeout, finalState := st1 }

/-- Helper: on a hello-opcode first frame whose body decodes, `Connect`
reduces to the interval check. -/
lemma connectAfterDial_hello_eq (frame : GatewayPayload)
    (decodeHello : GatewayPayload → Option gatewayHelloResponse)
    (h : gatewayHelloResponse) (hop : frame.opcode = OpcodeHello)
    (hdec : decodeHello frame = some h) :
    connectAfterDial (some frame) decodeHello =
      if durationOfMilliseconds h.heartbeatInterval ≤ 0 then
        { error := some .invalidLivenessInterval, heartbeatStarted := false,
          heartbeatInterval := none, receiveLoopStarted := false }
      else
        { error := none, heartbeatStarted := true,
          heartbeatInterval := some (durationOfMilliseconds h.heartbeatInterval),
          receiveLoopStarted := true } := by
  simp [connectAfterDial, hop, hdec]

/-- Helper: within the 64-bit-safe band the derived duration does not wrap. -/
lemma durationOfMilliseconds_eq_of_bounds (ms : Int) (h1 : -9223372036854 ≤ ms)
    (h2 : ms ≤ 9223372036854) : durationOfMilliseconds ms = ms * Millisecond := by
  unfold durationOfMilliseconds int64Wrap Millisecond
  have h3 : 0 ≤ ms * 1000000 + 9223372036854775808 := by omega
  have h4 : ms * 1000000 + 9223372036854775808 < 18446744073709551616 := by omega
  rw [Int.emod_eq_of_lt h3 h4]
  ring

/-- C4: for every first inbound frame whose opcode is not the hello opcode,
`Connect` fails with the handshake-protocol-violation error and starts
neither the heartbeat monitor nor the receive loop. -/
theorem connect_non_hello_first_frame_fails (frame : GatewayPayload)
    (decodeHello : GatewayPayload → Option gatewayHelloResponse)
    (h : frame.opcode ≠ OpcodeHello) :
    connectAfterDial (some frame) decodeHello =
      { error := some .handshakeProtocolViolation, heartbeatStarted := false,
        heartbeatInterval := none, receiveLoopStarted := false } := by
  simp [connectAfterDial, h]

/-- Witness for C4 at a dispatch-opcode first frame. -/
theorem connect_non_hello_first_frame_fails_witness :
    (({ opcode := OpcodeDispatch } : GatewayPayload).opcode ≠ OpcodeHello) ∧
    connectAfterDial (some { opcode := OpcodeDispatch }) (fun _ => none) =
      { error := some .handshakeProtocolViolation, heartbeatStarted := false,
        heartbeatInterval := none, receiveLoopStarted := false } :=
  ⟨by decide, connect_non_hello_first_frame_fails _ _ (by decide)⟩

/-- C5 counterexample: the hello interval 9223372036855 ms is strictly
positive, yet `Connect` rejects it with the invalid-liveness-interval error,
because `time.Duration(9223372036855) * time.Millisecond` overflows the
64-bit duration to a negative value. -/
theorem connect_positive_interval_rejected_counterexample :
    (0 : Int) < (9223372036855 : Int) ∧
    (connectAfterDial (some { opcode := OpcodeHello })
        (fun _ => some { heartbeatInterval := 9223372036855 })).error
      = some ConnectError.invalidLivenessInterval := by
  constructor
  · decide
  · decide

/-- C5 (amended): given a hello-opcode first frame whose body decodes to
`h`, `Connect` fails with the invalid-liveness-interval error exactly when
the derived 64-bit duration `h.heartbeatInterval * Millisecond` (wrapped on
overflow) is `≤ 0`; in particular, for every `heartbeat_interval` in
`(0, 9223372036854]` milliseconds — the positive values whose conversion to
nanoseconds does not overflow — `Connect` succeeds, starts the monitor and
the receive loop, and the monitor's cadence equals that interval; and for
every non-positive `heartbeat_interval` down to `-9223372036854` it fails
with the invalid-liveness-interval error. -/
theorem connect_hello_interval_validation (frame : GatewayPayload)
    (decodeHello : GatewayPayload → Option gatewayHelloResponse)
    (h : gatewayHelloResponse) (hop : frame.opcode = OpcodeHello)
    (hdec : decodeHello frame = some h) :
    ((connectAfterDial (some frame) decodeHello).error
        = some ConnectError.invalidLivenessInterval
      ↔ durationOfMilliseconds h.heartbeatInterval ≤ 0) ∧
    (0 < h.heartbeatInterval → h.heartbeatInterval ≤ 9223372036854 →
      (connectAfterDial (some frame) decodeHello).error = none ∧
      (connectAfterDial (some frame) decodeHello).heartbeatStarted = true ∧
      (connectAfterDial (some frame) decodeHello).receiveLoopStarted = true ∧
      (connectAfterDial (some frame) decodeHello).heartbeatInterval
        = some (h.heartbeatInterval * Millisecond)) ∧
    (-9223372036854 ≤ h.heartbeatInterval → h.heartbeatInterval ≤ 0 →
      (connectAfterDial (some frame) decodeHello).error
        = some ConnectError.invalidLivenessInterval) := by
  rw [connectAfterDial_hello_eq frame decodeHello h hop hdec]
  refine ⟨?_, ?_, ?_⟩
  · by_cases hle : durationOfMilliseconds h.heartbeatInterval ≤ 0 <;> simp [hle]
  · intro hpos hub
    have hdur : durationOfMilliseconds h.heartbeatInterval
        = h.heartbeatInterval * Millisecond :=
      durationOfMilliseconds_eq_of_bounds _ (by omega) hub
    have hgt : ¬ h.heartbeatInterval * Millisecond ≤ 0 := by
      unfold Millisecond; omega
    rw [hdur]
    simp [hgt]
  · intro hlb hnp
    have hdur : durationOfMilliseconds h.heartbeatInterval
        = h.heartbeatInterval * Millisecond :=
      durationOfMilliseconds_eq_of_bounds _ hlb (by omega)
    have hle : durationOfMilliseconds h.heartbeatInterval ≤ 0 := by
      rw [hdur]; unfold Millisecond; omega
    simp [hle]

/-- Witness for C5 at a hello frame carrying a 45000 ms interval. -/
theorem connect_hello_interval_validation_witness :
    (({ opcode := OpcodeHello } : GatewayPayload).opcode = OpcodeHello) ∧
    ((fun _ => some { heartbeatInterval := 45000 }) ({ opcode := OpcodeHello } : GatewayPayload)
      = some ({ heartbeatInterval := 45000 } : gatewayHelloResponse)) ∧
    (0 : Int) < 45000 ∧
    (connectAfterDial (some { opcode := OpcodeHello })
        (fun _ => some { heartbeatInterval := 45000 })).error = none ∧
    (connectAfterDial (some { opcode := OpcodeHello })
        (fun _ => some { heartbeatInterval := 45000 })).heartbeatInterval
      = some (45000 * Millisecond) :=
  ⟨rfl, rfl, by decide,
    ((connect_hello_interval_validation _ _ _ rfl rfl).2.1 (by decide) (by decide)).1,
    ((connect_hello_interval_validation _ _ _ rfl rfl).2.1 (by decide) (by decide)).2.2.2⟩

/-- C8: `RegisterOpcodeListener` appends the callback to the opcode's
ordered list (growing it by one, unboundedly), one receive-loop iteration
spawns exactly the registered list for the frame's opcode — so each
registered callback is invoked exactly as many times as it was registered —
and two listeners registered on the heartbeat-ack opcode are both invoked
exactly once by a single inbound acknowledgment frame. -/
theorem register_opcode_listener_appends_and_each_fires_once :
    (∀ (reg : Int → List Nat) (op : Int) (l : Nat),
      RegisterOpcodeListener reg op l op = reg op ++ [l] ∧
      (RegisterOpcodeListener reg op l op).length = (reg op).length + 1) ∧
    (∀ (reg : Int → List Nat) (p : GatewayPayload) (l : Nat),
      invokedOpcodeListeners reg p = reg p.opcode ∧
      (invokedOpcodeListeners reg p).count l = (reg p.opcode).count l) ∧
    (invokedOpcodeListeners
        (RegisterOpcodeListener
          (RegisterOpcodeListener (fun _ => ([] : List Nat)) OpcodeHeartbeatACK 1)
          OpcodeHeartbeatACK 2)
        { opcode := OpcodeHeartbeatACK } = [1, 2] ∧
      (invokedOpcodeListeners
        (RegisterOpcodeListener
          (RegisterOpcodeListener (fun _ => ([] : List Nat)) OpcodeHeartbeatACK 1)
          OpcodeHeartbeatACK 2)
        { opcode := OpcodeHeartbeatACK }).count 1 = 1 ∧
      (invokedOpcodeListeners
        (RegisterOpcodeListener
          (RegisterOpcodeListener (fun _ => ([] : List Nat)) OpcodeHeartbeatACK 1)
          OpcodeHeartbeatACK 2)
        { opcode := OpcodeHeartbeatACK }).count 2 = 1) := by
  refine ⟨fun reg op l => ⟨?_, ?_⟩, fun reg p l => ⟨rfl, rfl⟩, by decide, by decide, by decide⟩
  · simp [RegisterOpcodeListener]
  · simp [RegisterOpcodeListener]

/-- C9: every heartbeat frame the monitor sends carries the heartbeat
opcode and a sequence-number field equal to the shared sequence number at
that iteration (`none`, i.e. null, when none has been observed), with no
event name and no event data. -/
theorem heartbeat_frames_carry_opcode_and_current_seq (getSeq : Nat → Option Int)
    (n : Nat) :
    (heartbeatMessageSent getSeq n).opcode = OpcodeHeartbeat ∧
    (heartbeatMessageSent getSeq n).sequenceNumber = getSeq n ∧
    (heartbeatMessageSent getSeq n).eventName = "" ∧
    (heartbeatMessageSent getSeq n).eventData = none := by
  induction n with
  | zero => exact ⟨rfl, rfl, rfl, rfl⟩
  | succ n ih => exact ⟨ih.1, rfl, ih.2.2.1, ih.2.2.2⟩

/-- C10: for every inbound frame carrying the heartbeat opcode, the only
built-in listener invoked is `heartbeatRecv`, and the payload it sends back
carries the heartbeat-ack opcode with no event name, no event data and no
sequence number. -/
theorem inbound_heartbeat_gets_ack_reply (p : GatewayPayload)
    (h : p.opcode = OpcodeHeartbeat) :
    invokedOpcodeListeners builtinOpcodeRegistry p
      = [BuiltinListener.heartbeatRecvTok] ∧
    heartbeatRecv p =
      { opcode := OpcodeHeartbeatACK, eventName := "", eventData := none,
        sequenceNumber := none } := by
  constructor
  · show builtinOpcodeRegistry p.opcode = [BuiltinListener.heartbeatRecvTok]
    rw [h]
    decide
  · rfl

/-- Witness for C10 at a bare heartbeat frame. -/
theorem inbound_heartbeat_gets_ack_reply_witness :
    (({ opcode := OpcodeHeartbeat } : GatewayPayload).opcode = OpcodeHeartbeat) ∧
    invokedOpcodeListeners builtinOpcodeRegistry { opcode := OpcodeHeartbeat }
      = [BuiltinListener.heartbeatRecvTok] ∧
    heartbeatRecv { opcode := OpcodeHeartbeat } =
      { opcode := OpcodeHeartbeatACK, eventName := "", eventData := none,
        sequenceNumber := none } :=
  ⟨rfl, (inbound_heartbeat_gets_ack_reply _ rfl).1,
    (inbound_heartbeat_gets_ack_reply _ rfl).2⟩

/-- C1 (refuted by the source's scheduling): because the receive loop
performs the sequence-number update inside an asynchronously dispatched
opcode listener (`go opcodeListener(payload)`), there is a legal schedule in
which dispatch frames with sequence numbers 1 then 2 are both processed by
the receive loop in order, yet the heartbeat monitor observes 2 and then
the strictly older 1 — a decreasing observation that is also staler than
the most recently processed dispatch frame. -/
theorem dispatch_seq_update_race_observed_decreasing :
    (runRouter initialRouterState racySchedule).processedFrames.map
        GatewayPayload.sequenceNumber = [some 1, some 2] ∧
    (runRouter initialRouterState racySchedule).monitorReads = [some 2, some 1] ∧
    seqViolation (runRouter initialRouterState racySchedule).monitorReads := by
  refine ⟨by decide, by decide, 0, 1, 2, 1, by decide, by decide, by decide, by decide⟩

/-- C2 (refuted by the source): when `ReadJSON` fails in the receive loop,
the source calls `log.Fatal`, which terminates the whole host process; it
never takes the spec's stop-close-propagate path. -/
theorem receive_loop_read_failure_terminates_process (reg : Int → List Nat)
    (msg : String) :
    receiveLoopStep reg (.failure msg)
      = LoopStep.fatalExit "Failure reading message." ∧
    receiveLoopStep reg (.failure msg)
      ≠ LoopStep.connectionClosedWithReadFailure :=
  ⟨rfl, fun hcontra => nomatch hcontra⟩

/-- C3 (half refuted by the source): on an acknowledgment timeout the
heartbeat monitor does send a close control frame carrying the
session-timeout close code 4009, but it then calls `log.Fatal`, terminating
the host process instead of surfacing an `AckTimeout` condition to the
owning Connection. -/
theorem heartbeat_ack_timeout_closes_4009_then_terminates (interval : Int) :
    CloseSessionTimeout = 4009 ∧
    heartbeatCycle interval .ackTimeout =
      CycleOutcome.fatalExit
        { messageType := CloseMessage, closeCode := CloseSessionTimeout }
        "Heartbeat ack not received within time window." ∧
    ∀ c : SentControl,
      heartbeatCycle interval .ackTimeout ≠ CycleOutcome.surfacedAckTimeout c :=
  ⟨rfl, rfl, fun _c hcontra => nomatch hcontra⟩

/-- C6 (refuted by the source): on every exit path of `Identify` — success,
ready-payload decode failure, and timeout — the single-use listener
registered for the "READY" event name is still registered when `Identify`
returns; the source has no deregistration operation at all, so a stale
invocation on a later Identify attempt is possible. -/
theorem identify_ready_listener_never_deregistered (st : GatewayState)
    (tok : Nat) (arrival : Option (Int × Option gatewayReadyResponse)) :
    (Identify st tok true true arrival).finalState.eventListeners EventReady
      = st.eventListeners EventReady ++ [tok] := by
  unfold Identify
  cases arrival with
  | none => simp [RegisterEventListener]
  | some p =>
      obtain ⟨t, decoded⟩ := p
      by_cases ht : t < identifyTimeoutSeconds
      · cases decoded <;> simp [ht, RegisterEventListener]
      · simp [ht, RegisterEventListener]

/-- C7: if the Ready event for the identify request arrives (and decodes)
within the fixed 30-second timeout, `Identify` returns the user embedded in
the Ready payload and stores the session identifier on the Connection; if
no Ready event arrives within 30 seconds, it returns the identify-timeout
error and the session identifier remains unset. -/
theorem identify_ready_or_timeout (st : GatewayState) (tok : Nat) (t : Int)
    (r : gatewayReadyResponse) (hsess : st.sessionId = none) :
    (t < identifyTimeoutSeconds →
      (Identify st tok true true (some (t, some r))).user = r.user ∧
      (Identify st tok true true (some (t, some r))).error = none ∧
      (Identify st tok true true (some (t, some r))).finalState.sessionId
        = some r.sessionId) ∧
    ((Identify st tok true true none).error = some IdentifyError.identifyTimeout ∧
      (Identify st tok true true none).finalState.sessionId = none) ∧
    (identifyTimeoutSeconds ≤ t →
      (Identify st tok true true (some (t, some r))).error
        = some IdentifyError.identifyTimeout ∧
      (Identify st tok true true (some (t, some r))).finalState.sessionId = none) := by
  refine ⟨?_, ?_, ?_⟩
  · intro ht
    simp [Identify, ht]
  · simp [Identify, hsess]
  · intro ht
    have ht2 : ¬ t < identifyTimeoutSeconds := not_lt.mpr ht
    simp [Identify, ht2, hsess]

/-- Witness for C7: a Ready frame arriving after 5 seconds yields the
embedded user and session id; no Ready frame at all yields the timeout
error. -/
theorem identify_ready_or_timeout_witness :
    ({ eventListeners := fun _ => [], sessionId := none, sequenceNumber := none } :
        GatewayState).sessionId = none ∧
    (Identify
        { eventListeners := fun _ => [], sessionId := none, sequenceNumber := none }
        7 true true
        (some (5 * Second, some { sessionId := "abc123", user := { id := "42" } }))).user
      = ({ id := "42" } : User) ∧
    (Identify
        { eventListeners := fun _ => [], sessionId := none, sequenceNumber := none }
        7 true true
        (some (5 * Second,
          some { sessionId := "abc123", user := { id := "42" } }))).finalState.sessionId
      = some "abc123" ∧
    (Identify
        { eventListeners := fun _ => [], sessionId := none, sequenceNumber := none }
        7 true true none).error = some IdentifyError.identifyTimeout :=
  ⟨rfl,
    ((identify_ready_or_timeout
      { eventListeners := fun _ => [], sessionId := none, sequenceNumber := none }
      7 (5 * Second) { sessionId := "abc123", user := { id := "42" } } rfl).1
        (by decide)).1,
    ((identify_ready_or_timeout
      { eventListeners := fun _ => [], sessionId := none, sequenceNumber := none }
      7 (5 * Second) { sessionId := "abc123", user := { id := "42" } } rfl).1
        (by decide)).2.2,
    (identify_ready_or_timeout
      { eventListeners := fun _ => [], sessionId := none, sequenceNumber := none }
      7 (5 * Second) { sessionId := "abc123", user := { id := "42" } } rfl).2.1.1⟩

end Discordbot
